import Mathlib

/-!
Verification development for the ArchiveIQ document search service
(`main.py`): a shallow embedding of the orchestration logic — the
chunker contract, the upload (ingestion) pipeline, the search (query)
pipeline, and the auth gate — together with theorems about each.

External collaborators (PDF parser, embedding model, vector store RPC,
JWT decoding library) are modelled as parameters or abstract outcomes;
the control flow around them follows `main.py` line by line.
-/

namespace ArchiveIQ

/-! ### Chunker -/

/-- Modelled from the spec: the text splitter itself is external library
code (`RecursiveCharacterTextSplitter` from langchain, invoked at
`main.py` lines 140-144 with `chunk_size=1000, chunk_overlap=200`) and its
source is not part of this repository.  Following the spec's contract
(`chunk(text, size, overlap)`, substrings of at most `size` characters,
consecutive chunks sharing `overlap` characters, hard character cut as the
fallback), `chunk_step` emits windows of `size` characters advancing by
`size - overlap` each step; `fuel` bounds the recursion and is initialised
to the text length, which suffices whenever `overlap < size`. -/
def chunk_step (size overlap : Nat) : Nat → List Char → List (List Char)
  | 0, _ => []
  | _ + 1, [] => []
  | fuel + 1, x :: xs =>
      if (x :: xs).length ≤ size then [x :: xs]
      else (x :: xs).take size ::
        chunk_step size overlap fuel ((x :: xs).drop (size - overlap))

/-- Modelled from the spec: `chunk(text: string, size: int, overlap: int)
-> ordered_sequence<string>`. -/
def chunk (size overlap : Nat) (text : List Char) : List (List Char) :=
  chunk_step size overlap text.length text

/-- Concatenate a list of chunks after removing the first `overlap`
characters of each: the tail of "concatenating the chunks with overlaps
removed". -/
def overlap_drop_concat (overlap : Nat) : List (List Char) → List Char
  | [] => []
  | c :: cs => c.drop overlap ++ overlap_drop_concat overlap cs

/-- Concatenating chunks with overlaps removed: the first chunk is kept
whole, each later chunk loses its leading `overlap` characters. -/
def reassemble (overlap : Nat) : List (List Char) → List Char
  | [] => []
  | c :: cs => c ++ overlap_drop_concat overlap cs

/-! ### Auth gate (`get_current_user`, `main.py` lines 48-74) -/

/-- The failure modes of `jose.jwt.decode` (external library): all are
raised as the single exception class `JWTError` caught at line 73. -/
inductive DecodeError where
  | expired
  | malformed
  | wrong_audience
  | bad_signature
deriving DecidableEq

/-- The decoded JWT payload, as consumed by `get_current_user`: only the
`sub` claim is read (`payload.get("sub")`, line 68). -/
structure JWTPayload where
  sub : Option String
deriving DecidableEq

/-- An HTTPException as raised by the gate: status code and detail. -/
structure HttpError where
  status : Nat
  detail : String
deriving DecidableEq

/-- The `current_user` dict returned on success: `{"id": user_id}`. -/
structure AuthUser where
  id : String
deriving DecidableEq

def credentials_detail : String := "Could not validate credentials"

/-- `credentials_exception` of `main.py` lines 50-54. -/
def credentials_exception : HttpError := ⟨401, credentials_detail⟩

/-- `get_current_user` (`main.py` lines 48-74).  The call to
`jwt.decode(token, JWT_SECRET, algorithms=["HS256"], audience=...)` is
external; its outcome (a payload, or a `JWTError` of some subtype) is the
input here.  A missing `sub` claim raises `credentials_exception` inside
the `try`, which is not a `JWTError` and so propagates unchanged. -/
def get_current_user (decoded : Except DecodeError JWTPayload) :
    Except HttpError AuthUser :=
  match decoded with
  | .error _ => .error credentials_exception
  | .ok payload =>
      match payload.sub with
      | none => .error credentials_exception
      | some user_id => .ok ⟨user_id⟩

/-! ### Upload pipeline (`handle_upload`, `main.py` lines 101-166) -/

/-- One row of the `documents` table, as inserted at lines 150-155:
`{'content': chunk, 'embedding': embedding, 'user_id': user_id,
'filename': file.filename}`.  `E` is the embedding type (opaque here:
embeddings are produced by the external model). -/
structure Record (E : Type) where
  content : String
  embedding : E
  user_id : String
  filename : String
deriving DecidableEq

/-- Outcome of the external text-extraction step (lines 123-127): either
the concatenated page text, or a raised exception (e.g. `fitz.open`
failing), whose message lands in the catch-all at line 162. -/
inductive Extraction where
  | failure (msg : String)
  | ok (full_text : String)

/-- Observable outcome of one `handle_upload` run: HTTP status and body,
whether the temporary file (`temp_{filename}`, lines 118-120) was written
and whether it was removed (`os.remove`, line 130), whether the splitter
ran (and on what result), the list of texts passed to `model.encode`, and
the list of records successfully inserted into the store. -/
structure UploadOutcome (E : Type) where
  status : Nat
  body : String
  temp_written : Bool
  temp_removed : Bool
  chunked : Option (List String)
  embedded : List String
  stored : List (Record E)
deriving DecidableEq

def pdf_ext : List Char := ( ".pdf").data

/-- Python's `str.endswith` on character lists. -/
def ends_with (s t : List Char) : Bool :=
  s.drop (s.length - t.length) == t

/-- Python's `not full_text.strip()` (line 133): true iff every character
is whitespace (in particular for the empty string). -/
def is_blank (s : String) : Bool :=
  s.data.all Char.isWhitespace

def unsupported_format_body : String := "Only PDF files are supported"

def empty_doc_body : String := "PDF appears to be empty or contains no extractable text"

def error_body_head : String := "An error occurred: "

def upload_success_body (filename : String) (n : Nat) : String :=
  "Successfully uploaded " ++ filename ++ " (" ++ toString n ++ " chunks processed)"

/-- The `for chunk in chunks` loop of lines 147-155: for each chunk, in
order, compute its embedding, then attempt the insert.  `insert_ok k`
says whether the `k`-th insert call (0-based) succeeds; a failing insert
raises, with message `insert_err`, which aborts the loop.  Returns the
texts passed to the embedder, the records actually inserted, and the
error message if the loop aborted. -/
def ingest_loop (E : Type) (embed : String → E) (insert_ok : Nat → Bool)
    (insert_err user_id filename : String) :
    Nat → List String → List String × List (Record E) × Option String
  | _, [] => ([], [], none)
  | k, c :: rest =>
      let e := embed c
      if insert_ok k then
        let r := ingest_loop E embed insert_ok insert_err user_id filename (k + 1) rest
        (c :: r.1, ⟨c, e, user_id, filename⟩ :: r.2.1, r.2.2)
      else ([c], [], some insert_err)

/-- `handle_upload` (`main.py` lines 101-166).  `embed` abstracts
`model.encode`, `split_text` abstracts the external splitter's
`split_text`, `insert_ok`/`insert_err` abstract the store's insert calls,
and `extraction` abstracts lines 123-127.  The temporary file is written
before extraction; `os.remove` (line 130) runs only if extraction did not
raise — the catch-all at line 162 performs no cleanup. -/
def handle_upload (E : Type) (embed : String → E) (split_text : String → List String)
    (insert_ok : Nat → Bool) (insert_err : String)
    (filename user_id : String) (extraction : Extraction) : UploadOutcome E :=
  if ends_with filename.data pdf_ext then
    match extraction with
    | .failure msg =>
        ⟨500, error_body_head ++ msg, true, false, none, [], []⟩
    | .ok full_text =>
        if is_blank full_text then
          ⟨400, empty_doc_body, true, true, none, [], []⟩
        else
          let chunks := split_text full_text
          let r := ingest_loop E embed insert_ok insert_err user_id filename 0 chunks
          match r.2.2 with
          | none =>
              ⟨200, upload_success_body filename chunks.length, true, true,
                some chunks, r.1, r.2.1⟩
          | some msg =>
              ⟨500, error_body_head ++ msg, true, true, some chunks, r.1, r.2.1⟩
  else
    ⟨400, unsupported_format_body, false, false, none, [], []⟩

/-! ### Search pipeline (`handle_search`, `main.py` lines 168-217) -/

/-- One row returned by the `match_documents` RPC: `content` and
`similarity`, read at lines 201-202. -/
structure SearchRow where
  content : String
  similarity : ℚ
deriving DecidableEq

/-- The argument tuple of one `supabase.rpc('match_documents', ...)` call
(lines 187-192). -/
structure StoreCall (E : Type) where
  query_embedding : E
  match_threshold : ℚ
  match_count : Nat
  filter_user_id : String
deriving DecidableEq

/-- One result block of the rendered HTML (lines 204-209): the escaped
content and the relevance figure `doc['similarity'] * 100`. -/
structure Rendered where
  content : String
  relevance : ℚ
deriving DecidableEq

/-- The body of a search response: the 400 prompt
("Please enter a search query.") or the results markup (whose empty case
renders "No relevant documents found."). -/
inductive SearchBody where
  | prompt
  | results (rows : List Rendered)
deriving DecidableEq

/-- Observable outcome of one `handle_search` run: status, body, the
texts passed to `model.encode`, and the RPC calls made. -/
structure SearchRun (E : Type) where
  status : Nat
  body : SearchBody
  embed_calls : List String
  store_calls : List (StoreCall E)
deriving DecidableEq

/-- Python's `str.replace(c, r)` for a single-character pattern. -/
def replace_char (c : Char) (r : List Char) : List Char → List Char
  | [] => []
  | x :: xs => (if x = c then r else [x]) ++ replace_char c r xs

def lt_entity : List Char := ( "&lt;").data

def gt_entity : List Char := ( "&gt;").data

/-- Line 201: `doc['content'].replace('<', '&lt;').replace('>', '&gt;')`. -/
def escape_html (s : String) : String :=
  ⟨replace_char '>' gt_entity (replace_char '<' lt_entity s.data)⟩

/-- `'match_threshold': 0.5` (line 189). -/
def rpc_match_threshold : ℚ := 1 / 2

/-- `'match_count': 5` (line 190). -/
def rpc_match_count : Nat := 5

/-- Lines 199-209: one result row of the rendered markup, in response
order: escaped content and `similarity * 100`. -/
def render_row (r : SearchRow) : Rendered :=
  ⟨escape_html r.content, r.similarity * 100⟩

/-- `handle_search` (`main.py` lines 168-217).  `query` is
`form_data.get("query")` (`none` when the field is missing); `if not
query` is true exactly for `none` and the empty string.  `store`
abstracts the `match_documents` RPC. -/
def handle_search (E : Type) (embed : String → E)
    (store : E → ℚ → Nat → String → List SearchRow)
    (user_id : String) (query : Option String) : SearchRun E :=
  match query with
  | none => ⟨400, .prompt, [], []⟩
  | some q =>
      if q = "" then ⟨400, .prompt, [], []⟩
      else
        let query_embedding := embed q
        let rows := store query_embedding rpc_match_threshold rpc_match_count user_id
        ⟨200, .results (rows.map render_row), [q],
          [⟨query_embedding, rpc_match_threshold, rpc_match_count, user_id⟩]⟩

/-- The store's filter contract (assumed, not implemented here: the RPC
body lives in the database): every row returned for filter id `uid`
originates from a stored record whose `user_id` is `uid`. -/
def store_honors_filter (E : Type) (db : List (Record E))
    (store : E → ℚ → Nat → String → List SearchRow) : Prop :=
  ∀ e t l uid, ∀ row ∈ store e t l uid,
    ∃ rec ∈ db, rec.user_id = uid ∧ row.content = rec.content

/-- Concrete run for the C1 counterexample: a single chunk whose insert
fails. -/
def c1_run : UploadOutcome Nat :=
  handle_upload Nat (fun _ => 0) (fun _ => [ "c0"]) (fun _ => false)
    ( "boom") ( "doc.pdf") ( "alice") (.ok ( "hello"))

/-- Concrete run for the C8 counterexample: a stored chunk whose content
is a lone ampersand. -/
def ampersand : String := "&"

def c8_run : SearchRun Nat :=
  handle_search Nat (fun _ => 0) (fun _ _ _ _ => [⟨ampersand, 1⟩])
    ( "alice") (some ( "q"))

/-- Concrete run for the C9 counterexample: extraction raises, so the
temporary file written at lines 118-120 is never removed. -/
def c9_run : UploadOutcome Nat :=
  handle_upload Nat (fun _ => 0) (fun _ => []) (fun _ => true)
    ( "e") ( "doc.pdf") ( "alice") (.failure ( "io error"))

/-! ### Chunker lemmas -/

theorem chunk_step_length_le (size overlap : Nat) :
    ∀ fuel text, ∀ c ∈ chunk_step size overlap fuel text, c.length ≤ size := by
  intro fuel
  induction fuel with
  | zero => intro text c hc; simp [chunk_step] at hc
  | succ n ih =>
    intro text c hc
    match text with
    | [] => simp [chunk_step] at hc
    | x :: xs =>
      rw [chunk_step] at hc
      by_cases h : (x :: xs).length ≤ size
      · rw [if_pos h] at hc
        rcases List.mem_singleton.mp hc with rfl
        exact h
      · rw [if_neg h] at hc
        rcases List.mem_cons.mp hc with rfl | hmem
        · rw [List.length_take]
          exact Nat.min_le_left size (x :: xs).length
        · exact ih _ c hmem

theorem chunk_step_ne_nil (size overlap : Nat) (hs : 0 < size) :
    ∀ fuel text, ∀ c ∈ chunk_step size overlap fuel text, c ≠ [] := by
  intro fuel
  induction fuel with
  | zero => intro text c hc; simp [chunk_step] at hc
  | succ n ih =>
    intro text c hc
    match text with
    | [] => simp [chunk_step] at hc
    | x :: xs =>
      rw [chunk_step] at hc
      by_cases h : (x :: xs).length ≤ size
      · rw [if_pos h] at hc
        rcases List.mem_singleton.mp hc with rfl
        exact List.cons_ne_nil x xs
      · rw [if_neg h] at hc
        rcases List.mem_cons.mp hc with rfl | hmem
        · intro hnil
          have hlen0 : (List.take size (x :: xs)).length = 0 := by rw [hnil]; rfl
          rw [List.length_take] at hlen0
          rcases Nat.min_eq_zero_iff.mp hlen0 with h0 | h0
          · exact Nat.lt_irrefl 0 (h0 ▸ hs)
          · simp at h0
        · exact ih _ c hmem

theorem chunk_step_drop_concat (size overlap : Nat) (ho : overlap < size) :
    ∀ fuel text, text.length ≤ fuel →
      overlap_drop_concat overlap (chunk_step size overlap fuel text) =
        text.drop overlap := by
  intro fuel
  induction fuel with
  | zero =>
    intro text hlen
    have htext : text = [] := List.eq_nil_of_length_eq_zero (Nat.le_zero.mp hlen)
    subst htext
    simp [chunk_step, overlap_drop_concat]
  | succ n ih =>
    intro text hlen
    match text with
    | [] => simp [chunk_step, overlap_drop_concat]
    | x :: xs =>
      rw [chunk_step]
      by_cases h : (x :: xs).length ≤ size
      · rw [if_pos h]
        simp [overlap_drop_concat]
      · rw [if_neg h]
        rw [overlap_drop_concat]
        have hstep : 0 < size - overlap := Nat.sub_pos_of_lt ho
        have hrec : ((x :: xs).drop (size - overlap)).length ≤ n := by
          rw [List.length_drop]
          omega
        rw [ih _ hrec]
        rw [List.drop_drop, List.drop_take]
        have hsum : size - overlap + overlap = size := Nat.sub_add_cancel ho.le
        rw [hsum]
        have hsplit : (x :: xs).drop size =
            ((x :: xs).drop overlap).drop (size - overlap) := by
          rw [List.drop_drop]
          congr 1
          omega
        rw [hsplit, List.take_append_drop]

theorem chunk_step_reassemble (size overlap : Nat) (ho : overlap < size) :
    ∀ fuel text, text.length ≤ fuel →
      reassemble overlap (chunk_step size overlap fuel text) = text := by
  intro fuel
  induction fuel with
  | zero =>
    intro text hlen
    have htext : text = [] := List.eq_nil_of_length_eq_zero (Nat.le_zero.mp hlen)
    subst htext
    simp [chunk_step, reassemble]
  | succ n ih =>
    intro text hlen
    match text with
    | [] => simp [chunk_step, reassemble]
    | x :: xs =>
      rw [chunk_step]
      by_cases h : (x :: xs).length ≤ size
      · rw [if_pos h]
        simp [reassemble, overlap_drop_concat]
      · rw [if_neg h]
        rw [reassemble]
        have hrec : ((x :: xs).drop (size - overlap)).length ≤ n := by
          rw [List.length_drop]
          have hstep : 0 < size - overlap := Nat.sub_pos_of_lt ho
          omega
        rw [chunk_step_drop_concat size overlap ho n _ hrec]
        rw [List.drop_drop, Nat.sub_add_cancel ho.le, List.take_append_drop]

/-- C3: for `0 < size` and `overlap < size`, every chunk the chunker
produces has length at most `size` and is non-empty, concatenating the
chunks with overlaps removed reconstructs the input text exactly, and
empty input yields the empty sequence. -/
theorem chunk_properties (size overlap : Nat) (hs : 0 < size) (ho : overlap < size)
    (text : List Char) :
    (∀ c ∈ chunk size overlap text, c.length ≤ size ∧ c ≠ []) ∧
    reassemble overlap (chunk size overlap text) = text ∧
    chunk size overlap [] = [] :=
  ⟨fun c hc => ⟨chunk_step_length_le size overlap _ _ c hc,
      chunk_step_ne_nil size overlap hs _ _ c hc⟩,
    chunk_step_reassemble size overlap ho _ _ le_rfl,
    rfl⟩

/-- Witness for `chunk_properties` at `size = 3`, `overlap = 1`,
`text = "abcde"` (which chunks as `["abc", "cde"]`). -/
theorem chunk_properties_witness :
    0 < 3 ∧ 1 < 3 ∧
    chunk 3 1 ( "abcde").data = [( "abc").data, ( "cde").data] ∧
    ((∀ c ∈ chunk 3 1 ( "abcde").data, c.length ≤ 3 ∧ c ≠ []) ∧
      reassemble 1 (chunk 3 1 ( "abcde").data) = ( "abcde").data ∧
      chunk 3 1 [] = []) :=
  ⟨by decide, by decide, by decide,
    chunk_properties 3 1 (by decide) (by decide) (( "abcde").data)⟩

/-! ### Ingest-loop lemmas -/

theorem ingest_loop_fail (E : Type) (embed : String → E) (insert_ok : Nat → Bool)
    (insert_err user_id filename : String) :
    ∀ (j k : Nat) (cs : List String), j < cs.length →
      (∀ i, i < j → insert_ok (k + i) = true) → insert_ok (k + j) = false →
      ingest_loop E embed insert_ok insert_err user_id filename k cs =
        (cs.take (j + 1),
          (cs.take j).map (fun c => ⟨c, embed c, user_id, filename⟩),
          some insert_err) := by
  intro j
  induction j with
  | zero =>
    intro k cs hlen hpre hfail
    match cs with
    | [] => simp at hlen
    | c :: rest =>
      rw [Nat.add_zero] at hfail
      simp [ingest_loop, hfail]
  | succ m ih =>
    intro k cs hlen hpre hfail
    match cs with
    | [] => simp at hlen
    | c :: rest =>
      have h0 : insert_ok k = true := by
        have h00 := hpre 0 (Nat.succ_pos m)
        rwa [Nat.add_zero] at h00
      have hrec := ih (k + 1) rest (by simpa using Nat.lt_of_succ_lt_succ hlen)
        (fun i hi => by
          have hh := hpre (i + 1) (Nat.succ_lt_succ hi)
          have heq : k + 1 + i = k + (i + 1) := by omega
          rw [heq]
          exact hh)
        (by
          have heq : k + 1 + m = k + (m + 1) := by omega
          rw [heq]
          exact hfail)
      simp [ingest_loop, h0, hrec]

theorem ingest_loop_all_ok (E : Type) (embed : String → E) (insert_ok : Nat → Bool)
    (insert_err user_id filename : String) (hok : ∀ i, insert_ok i = true) :
    ∀ (cs : List String) (k : Nat),
      ingest_loop E embed insert_ok insert_err user_id filename k cs =
        (cs, cs.map (fun c => ⟨c, embed c, user_id, filename⟩), none) := by
  intro cs
  induction cs with
  | nil => intro k; rfl
  | cons c rest ih =>
    intro k
    simp [ingest_loop, hok k, ih (k + 1)]

theorem ingest_loop_stored_user (E : Type) (embed : String → E) (insert_ok : Nat → Bool)
    (insert_err user_id filename : String) :
    ∀ (cs : List String) (k : Nat),
      ∀ rec ∈ (ingest_loop E embed insert_ok insert_err user_id filename k cs).2.1,
        rec.user_id = user_id := by
  intro cs
  induction cs with
  | nil => intro k rec hrec; simp [ingest_loop] at hrec
  | cons c rest ih =>
    intro k rec hrec
    cases hk : insert_ok k with
    | true =>
      simp only [ingest_loop, hk, if_true] at hrec
      rcases List.mem_cons.mp hrec with rfl | h2
      · rfl
      · exact ih (k + 1) rec h2
    | false =>
      simp [ingest_loop, hk] at hrec

/-! ### Upload pipeline theorems -/

/-- C1 counterexample: with a single-chunk document whose very first
store insert fails (so the insert fails "while ingesting the k-th chunk"
for k = 1), the request ends 500 and nothing is stored — but the list of
texts passed to the embedder is `["c0"]`, not empty: chunk k itself WAS
embedded before its insert failed, contradicting "no chunk from k onward
is embedded or stored". -/
theorem upload_midfail_embeds_kth_chunk :
    c1_run.status = 500 ∧ c1_run.stored = [] ∧ c1_run.embedded = [ "c0"] ∧
    c1_run.embedded ≠ [] := by decide

/-- C1 (amended): if the store insert first fails at the chunk of 0-based
index `j` (the (j+1)-th chunk), the pipeline aborts immediately: the
request ends 500 with a generic failure body, the `j` chunks before the
failing one remain stored (no rollback), the failing chunk and no later
one is stored, and exactly the chunks up to AND INCLUDING the failing one
were embedded. -/
theorem upload_midfail_partial_commit (E : Type) (embed : String → E)
    (split_text : String → List String) (insert_ok : Nat → Bool)
    (insert_err filename user_id full_text : String) (j : Nat)
    (hpdf : ends_with filename.data pdf_ext = true)
    (htext : is_blank full_text = false)
    (hj : j < (split_text full_text).length)
    (hpre : ∀ i, i < j → insert_ok i = true)
    (hfail : insert_ok j = false) :
    handle_upload E embed split_text insert_ok insert_err filename user_id (.ok full_text) =
      ⟨500, error_body_head ++ insert_err, true, true, some (split_text full_text),
        (split_text full_text).take (j + 1),
        ((split_text full_text).take j).map (fun c => ⟨c, embed c, user_id, filename⟩)⟩ := by
  have hloop := ingest_loop_fail E embed insert_ok insert_err user_id filename j 0
    (split_text full_text) hj
    (fun i hi => by
      have hh := hpre i hi
      rwa [Nat.zero_add])
    (by rwa [Nat.zero_add])
  simp [handle_upload, hpdf, htext, hloop]

/-- Witness for `upload_midfail_partial_commit`: three chunks, the insert
of the second one (j = 1) fails. -/
theorem upload_midfail_partial_commit_witness :
    ends_with ( "doc.pdf").data pdf_ext = true ∧
    is_blank ( "hello") = false ∧
    1 < ([ "c0", "c1", "c2"] : List String).length ∧
    handle_upload Nat (fun _ => 0) (fun _ => [ "c0", "c1", "c2"])
        (fun i => decide (i < 1)) ( "boom") ( "doc.pdf") ( "alice") (.ok ( "hello")) =
      ⟨500, error_body_head ++ ( "boom"), true, true,
        some [ "c0", "c1", "c2"],
        ([ "c0", "c1", "c2"] : List String).take 2,
        (([ "c0", "c1", "c2"] : List String).take 1).map
          (fun c => ⟨c, 0, ( "alice"), ( "doc.pdf")⟩)⟩ :=
  ⟨by decide, by decide, by decide,
    upload_midfail_partial_commit Nat (fun _ => 0) (fun _ => [ "c0", "c1", "c2"])
      (fun i => decide (i < 1)) ( "boom") ( "doc.pdf") ( "alice") ( "hello") 1
      (by decide) (by decide) (by decide)
      (fun i hi => decide_eq_true hi) (by decide)⟩

/-- C4: a PDF whose extracted text is empty or all-whitespace is rejected
with status 400 and the empty-document body; the splitter never runs, the
embedder is never invoked, and nothing is written to the store (the
temporary file was written and removed before the check). -/
theorem empty_document_rejected (E : Type) (embed : String → E)
    (split_text : String → List String) (insert_ok : Nat → Bool)
    (insert_err filename user_id full_text : String)
    (hpdf : ends_with filename.data pdf_ext = true)
    (hblank : is_blank full_text = true) :
    handle_upload E embed split_text insert_ok insert_err filename user_id (.ok full_text) =
      ⟨400, empty_doc_body, true, true, none, [], []⟩ := by
  simp [handle_upload, hpdf, hblank]

/-- Witness for `empty_document_rejected` on the whitespace-only text
`" \n"`. -/
theorem empty_document_rejected_witness :
    ends_with ( "a.pdf").data pdf_ext = true ∧
    is_blank ( " \n") = true ∧
    handle_upload Nat (fun _ => 0) (fun _ => []) (fun _ => true) ( "e") ( "a.pdf")
        ( "alice") (.ok ( " \n")) = ⟨400, empty_doc_body, true, true, none, [], []⟩ :=
  ⟨by decide, by decide,
    empty_document_rejected Nat (fun _ => 0) (fun _ => []) (fun _ => true)
      ( "e") ( "a.pdf") ( "alice") ( " \n") (by decide) (by decide)⟩

/-- C9 counterexample: when extraction raises, the run has stored no
record at all, yet the temporary file `temp_{filename}` was written and
— because `os.remove` at line 130 is skipped by the exception — never
removed: an observable state change that is not a store record, so "the
only observable side effect is one record written to the store per
chunk" is false. -/
theorem temp_file_side_effect :
    c9_run.stored = [] ∧ c9_run.temp_written = true ∧
    c9_run.temp_removed = false ∧ c9_run.status = 500 := by decide

/-- C9 (amended): besides the store inserts (one record per chunk, in
order, on a fully successful run), ingestion also writes a temporary file
and removes it again after extraction; a run whose extraction step raises
leaves the temporary file behind (written but not removed) while storing
nothing. -/
theorem upload_side_effects (E : Type) (embed : String → E)
    (split_text : String → List String) (insert_ok : Nat → Bool)
    (insert_err filename user_id full_text msg : String)
    (hpdf : ends_with filename.data pdf_ext = true)
    (htext : is_blank full_text = false)
    (hok : ∀ i, insert_ok i = true) :
    handle_upload E embed split_text insert_ok insert_err filename user_id (.ok full_text) =
      ⟨200, upload_success_body filename (split_text full_text).length, true, true,
        some (split_text full_text), split_text full_text,
        (split_text full_text).map (fun c => ⟨c, embed c, user_id, filename⟩)⟩ ∧
    (handle_upload E embed split_text insert_ok insert_err filename user_id (.failure msg)).temp_written = true ∧
    (handle_upload E embed split_text insert_ok insert_err filename user_id (.failure msg)).temp_removed = false ∧
    (handle_upload E embed split_text insert_ok insert_err filename user_id (.failure msg)).stored = [] := by
  have hloop := ingest_loop_all_ok E embed insert_ok insert_err user_id filename hok
    (split_text full_text) 0
  refine ⟨by simp [handle_upload, hpdf, htext, hloop], ?_, ?_, ?_⟩
  all_goals simp [handle_upload, hpdf]

/-- Witness for `upload_side_effects`: a two-chunk document, all inserts
succeeding, plus a failing-extraction run of the same upload. -/
theorem upload_side_effects_witness :
    ends_with ( "doc.pdf").data pdf_ext = true ∧
    is_blank ( "hi") = false ∧
    handle_upload Nat (fun _ => 0) (fun _ => [ "c0", "c1"]) (fun _ => true) ( "e")
        ( "doc.pdf") ( "alice") (.ok ( "hi")) =
      ⟨200, upload_success_body ( "doc.pdf") ([ "c0", "c1"] : List String).length,
        true, true, some [ "c0", "c1"], [ "c0", "c1"],
        ([ "c0", "c1"] : List String).map (fun c => ⟨c, 0, ( "alice"), ( "doc.pdf")⟩)⟩ ∧
    (handle_upload Nat (fun _ => 0) (fun _ => [ "c0", "c1"]) (fun _ => true) ( "e")
        ( "doc.pdf") ( "alice") (.failure ( "io error"))).temp_written = true ∧
    (handle_upload Nat (fun _ => 0) (fun _ => [ "c0", "c1"]) (fun _ => true) ( "e")
        ( "doc.pdf") ( "alice") (.failure ( "io error"))).temp_removed = false ∧
    (handle_upload Nat (fun _ => 0) (fun _ => [ "c0", "c1"]) (fun _ => true) ( "e")
        ( "doc.pdf") ( "alice") (.failure ( "io error"))).stored = [] :=
  ⟨by decide, by decide,
    (upload_side_effects Nat (fun _ => 0) (fun _ => [ "c0", "c1"]) (fun _ => true)
      ( "e") ( "doc.pdf") ( "alice") ( "hi") ( "io error")
      (by decide) (by decide) (fun _ => rfl)).1,
    (upload_side_effects Nat (fun _ => 0) (fun _ => [ "c0", "c1"]) (fun _ => true)
      ( "e") ( "doc.pdf") ( "alice") ( "hi") ( "io error")
      (by decide) (by decide) (fun _ => rfl)).2.1,
    (upload_side_effects Nat (fun _ => 0) (fun _ => [ "c0", "c1"]) (fun _ => true)
      ( "e") ( "doc.pdf") ( "alice") ( "hi") ( "io error")
      (by decide) (by decide) (fun _ => rfl)).2.2.1,
    (upload_side_effects Nat (fun _ => 0) (fun _ => [ "c0", "c1"]) (fun _ => true)
      ( "e") ( "doc.pdf") ( "alice") ( "hi") ( "io error")
      (by decide) (by decide) (fun _ => rfl)).2.2.2⟩

/-! ### Auth gate theorems -/

/-- C7: every `jwt.decode` failure (expired, malformed, wrong audience,
bad signature) and a missing `sub` claim all collapse to one and the same
Unauthorized outcome — the single `credentials_exception`, a 401 with the
one fixed detail string — while a token that validates yields its `sub`
claim as the owner id. -/
theorem auth_failures_collapse :
    (∀ e : DecodeError, get_current_user (.error e) = .error credentials_exception) ∧
    get_current_user (.ok ⟨none⟩) = .error credentials_exception ∧
    (∀ e e' : DecodeError,
      get_current_user (.error e) = get_current_user (.error e')) ∧
    credentials_exception.status = 401 ∧
    credentials_exception.detail = credentials_detail ∧
    (∀ s : String, get_current_user (.ok ⟨some s⟩) = .ok ⟨s⟩) :=
  ⟨fun _ => rfl, rfl, fun _ _ => rfl, rfl, rfl, fun _ => rfl⟩

/-! ### Escaping lemmas -/

theorem replace_char_mem (t : Char) (r : List Char) :
    ∀ (l : List Char) (c : Char), c ∈ replace_char t r l →
      c ∈ r ∨ (c ∈ l ∧ c ≠ t) := by
  intro l
  induction l with
  | nil => intro c hc; simp [replace_char] at hc
  | cons x xs ih =>
    intro c hc
    rw [replace_char] at hc
    rcases List.mem_append.mp hc with h1 | h2
    · by_cases hx : x = t
      · rw [if_pos hx] at h1
        exact Or.inl h1
      · rw [if_neg hx] at h1
        rcases List.mem_singleton.mp h1 with rfl
        exact Or.inr ⟨List.mem_cons_self c xs, hx⟩
    · rcases ih c h2 with h | ⟨hmem, hne⟩
      · exact Or.inl h
      · exact Or.inr ⟨List.mem_cons_of_mem x hmem, hne⟩

theorem replace_char_mem_of_ne (t : Char) (r : List Char) :
    ∀ (l : List Char) (c : Char), c ∈ l → c ≠ t →
      c ∈ replace_char t r l := by
  intro l
  induction l with
  | nil => intro c hc; simp at hc
  | cons x xs ih =>
    intro c hc hne
    rw [replace_char]
    rcases List.mem_cons.mp hc with rfl | h2
    · rw [if_neg hne]
      exact List.mem_append.mpr (Or.inl (List.mem_singleton.mpr rfl))
    · exact List.mem_append.mpr (Or.inr (ih c h2 hne))

/-- C8 counterexample: the ampersand is a markup-significant character
(it begins every entity reference), yet `escape_html` leaves it
untouched: a stored chunk whose content is `"&"` is embedded verbatim in
the rendered output, relevance `1 * 100`. -/
theorem ampersand_not_escaped :
    escape_html ampersand = ampersand ∧
    c8_run.body = .results [⟨ampersand, 100⟩] := by
  constructor
  · decide
  · show SearchBody.results [render_row ⟨ampersand, 1⟩] = .results [⟨ampersand, 100⟩]
    have h1 : render_row ⟨ampersand, 1⟩ = ⟨ampersand, 100⟩ := by
      rw [render_row]
      have he : escape_html ampersand = ampersand := by decide
      rw [he]
      rw [Rendered.mk.injEq]
      exact ⟨rfl, one_mul 100⟩
    rw [h1]

/-- C8 (amended): the rendering escape replaces every `<` with `&lt;` and
every `>` with `&gt;`, so the escaped content contains no raw angle
bracket (no element markup can be injected); every other character of the
stored content — in particular `&` and quotes — passes through
unescaped. -/
theorem angle_bracket_escaping (s : String) :
    '<' ∉ (escape_html s).data ∧ '>' ∉ (escape_html s).data ∧
    (∀ c ∈ s.data, c ≠ '<' → c ≠ '>' → c ∈ (escape_html s).data) := by
  refine ⟨?_, ?_, ?_⟩
  · intro hmem
    rcases replace_char_mem '>' gt_entity _ _ hmem with h | ⟨h2, _⟩
    · revert h; decide
    · rcases replace_char_mem '<' lt_entity _ _ h2 with h | ⟨_, hne⟩
      · revert h; decide
      · exact hne rfl
  · intro hmem
    rcases replace_char_mem '>' gt_entity _ _ hmem with h | ⟨_, hne⟩
    · revert h; decide
    · exact hne rfl
  · intro c hc hlt hgt
    exact replace_char_mem_of_ne '>' gt_entity _ c
      (replace_char_mem_of_ne '<' lt_entity _ c hc hlt) hgt

/-- Witness for `angle_bracket_escaping` on the content `"<a&"`. -/
theorem angle_bracket_escaping_witness :
    '<' ∉ (escape_html ( "<a&")).data ∧ '>' ∉ (escape_html ( "<a&")).data ∧
    (∀ c ∈ ( "<a&").data, c ≠ '<' → c ≠ '>' → c ∈ (escape_html ( "<a&")).data) :=
  angle_bracket_escaping ( "<a&")

/-! ### Search pipeline theorems -/

/-- C5: a missing or empty query short-circuits before the `try` block:
no embedder call, no store call, status 400 with the prompt body — an
outcome distinct (in status and in body) from a non-empty query that
matches nothing, which does embed, does call the store, and renders the
empty result set with status 200. -/
theorem empty_query_short_circuit (E : Type) (embed : String → E)
    (store : E → ℚ → Nat → String → List SearchRow) (user_id q : String)
    (hq : q ≠ "")
    (hzero : store (embed q) rpc_match_threshold rpc_match_count user_id = []) :
    handle_search E embed store user_id none = ⟨400, .prompt, [], []⟩ ∧
    handle_search E embed store user_id (some ( "")) = ⟨400, .prompt, [], []⟩ ∧
    handle_search E embed store user_id (some q) =
      ⟨200, .results [], [q],
        [⟨embed q, rpc_match_threshold, rpc_match_count, user_id⟩]⟩ ∧
    (400 : Nat) ≠ 200 ∧ SearchBody.prompt ≠ .results [] := by
  refine ⟨rfl, rfl, ?_, by decide, by decide⟩
  simp [handle_search, hq, hzero]

/-- Witness for `empty_query_short_circuit` with query `"x"` and a store
returning no match. -/
theorem empty_query_short_circuit_witness :
    ( "x") ≠ "" ∧
    handle_search Nat (fun _ => 0) (fun _ _ _ _ => []) ( "alice") none =
      ⟨400, .prompt, [], []⟩ ∧
    handle_search Nat (fun _ => 0) (fun _ _ _ _ => []) ( "alice") (some ( "")) =
      ⟨400, .prompt, [], []⟩ ∧
    handle_search Nat (fun _ => 0) (fun _ _ _ _ => []) ( "alice") (some ( "x")) =
      ⟨200, .results [], [ "x"],
        [⟨(fun (_ : String) => (0 : Nat)) ( "x"), rpc_match_threshold,
          rpc_match_count, ( "alice")⟩]⟩ ∧
    (400 : Nat) ≠ 200 ∧ SearchBody.prompt ≠ .results [] :=
  have h := empty_query_short_circuit Nat (fun _ => 0) (fun _ _ _ _ => [])
    ( "alice") ( "x") (by decide) rfl
  ⟨by decide, h.1, h.2.1, h.2.2.1, h.2.2.2.1, h.2.2.2.2⟩

/-- C6: a non-empty query is embedded (one embedder call, on the query
text), the store's similarity search is called exactly once with exactly
(query embedding, threshold 1/2, limit 5, caller's owner id), and the
rendered rows are the store's rows in the store's order — same length,
contents escaped, relevance `similarity * 100` — with no re-sorting and
no re-filtering. -/
theorem search_passes_store_results_through (E : Type) (embed : String → E)
    (store : E → ℚ → Nat → String → List SearchRow) (user_id q : String)
    (hq : q ≠ "") :
    (handle_search E embed store user_id (some q)).embed_calls = [q] ∧
    (handle_search E embed store user_id (some q)).store_calls =
      [⟨embed q, 1 / 2, 5, user_id⟩] ∧
    (handle_search E embed store user_id (some q)).status = 200 ∧
    (handle_search E embed store user_id (some q)).body =
      .results ((store (embed q) (1 / 2) 5 user_id).map render_row) ∧
    ((store (embed q) (1 / 2) 5 user_id).map render_row).map Rendered.content =
      (store (embed q) (1 / 2) 5 user_id).map (fun r => escape_html r.content) ∧
    ((store (embed q) (1 / 2) 5 user_id).map render_row).map Rendered.relevance =
      (store (embed q) (1 / 2) 5 user_id).map (fun r => r.similarity * 100) ∧
    ((store (embed q) (1 / 2) 5 user_id).map render_row).length =
      (store (embed q) (1 / 2) 5 user_id).length := by
  refine ⟨?_, ?_, ?_, ?_, ?_, ?_, ?_⟩
  all_goals simp [handle_search, hq, rpc_match_threshold, rpc_match_count,
    List.map_map, render_row, Function.comp]

/-- Witness for `search_passes_store_results_through`: a two-row store
response deliberately NOT in descending similarity order, passed through
unchanged. -/
theorem search_passes_store_results_through_witness :
    ( "x") ≠ "" ∧
    ((handle_search Nat (fun _ => 0)
        (fun _ _ _ _ => [⟨( "b"), 1 / 4⟩, ⟨( "a"), 3 / 4⟩]) ( "alice")
        (some ( "x"))).embed_calls = [ "x"] ∧
      (handle_search Nat (fun _ => 0)
        (fun _ _ _ _ => [⟨( "b"), 1 / 4⟩, ⟨( "a"), 3 / 4⟩]) ( "alice")
        (some ( "x"))).store_calls =
        [⟨(fun (_ : String) => (0 : Nat)) ( "x"), 1 / 2, 5, ( "alice")⟩] ∧
      (handle_search Nat (fun _ => 0)
        (fun _ _ _ _ => [⟨( "b"), 1 / 4⟩, ⟨( "a"), 3 / 4⟩]) ( "alice")
        (some ( "x"))).status = 200 ∧
      (handle_search Nat (fun _ => 0)
        (fun _ _ _ _ => [⟨( "b"), 1 / 4⟩, ⟨( "a"), 3 / 4⟩]) ( "alice")
        (some ( "x"))).body =
        .results (([⟨( "b"), 1 / 4⟩, ⟨( "a"), 3 / 4⟩] : List SearchRow).map render_row) ∧
      (([⟨( "b"), 1 / 4⟩, ⟨( "a"), 3 / 4⟩] : List SearchRow).map render_row).map
          Rendered.content =
        ([⟨( "b"), 1 / 4⟩, ⟨( "a"), 3 / 4⟩] : List SearchRow).map
          (fun r => escape_html r.content) ∧
      (([⟨( "b"), 1 / 4⟩, ⟨( "a"), 3 / 4⟩] : List SearchRow).map render_row).map
          Rendered.relevance =
        ([⟨( "b"), 1 / 4⟩, ⟨( "a"), 3 / 4⟩] : List SearchRow).map
          (fun r => r.similarity * 100) ∧
      (([⟨( "b"), 1 / 4⟩, ⟨( "a"), 3 / 4⟩] : List SearchRow).map render_row).length =
        ([⟨( "b"), 1 / 4⟩, ⟨( "a"), 3 / 4⟩] : List SearchRow).length) :=
  ⟨by decide,
    search_passes_store_results_through Nat (fun _ => 0)
      (fun _ _ _ _ => [⟨( "b"), 1 / 4⟩, ⟨( "a"), 3 / 4⟩]) ( "alice") ( "x")
      (by decide)⟩

/-- C10: the short-circuit fires exactly for a missing or zero-length
query form value; a non-empty query consisting solely of whitespace is
NOT short-circuited — the embedder is invoked on the whitespace string
and the store's similarity search is called. -/
theorem whitespace_query_not_short_circuited (E : Type) (embed : String → E)
    (store : E → ℚ → Nat → String → List SearchRow) (user_id q : String)
    (hq : q ≠ "") :
    (handle_search E embed store user_id (some q)).embed_calls = [q] ∧
    (handle_search E embed store user_id (some q)).store_calls =
      [⟨embed q, rpc_match_threshold, rpc_match_count, user_id⟩] ∧
    (handle_search E embed store user_id (some q)).status = 200 ∧
    (handle_search E embed store user_id none).embed_calls = [] ∧
    (handle_search E embed store user_id none).store_calls = [] ∧
    (handle_search E embed store user_id none).status = 400 ∧
    (handle_search E embed store user_id (some ( ""))).embed_calls = [] ∧
    (handle_search E embed store user_id (some ( ""))).store_calls = [] ∧
    (handle_search E embed store user_id (some ( ""))).status = 400 := by
  refine ⟨?_, ?_, ?_, rfl, rfl, rfl, rfl, rfl, rfl⟩
  all_goals simp [handle_search, hq]

/-- Witness for `whitespace_query_not_short_circuited` at the
whitespace-only query `" "`. -/
theorem whitespace_query_not_short_circuited_witness :
    ( " ") ≠ "" ∧
    ((handle_search Nat (fun _ => 0) (fun _ _ _ _ => []) ( "alice")
        (some ( " "))).embed_calls = [ " "] ∧
      (handle_search Nat (fun _ => 0) (fun _ _ _ _ => []) ( "alice")
        (some ( " "))).store_calls =
        [⟨(fun (_ : String) => (0 : Nat)) ( " "), rpc_match_threshold,
          rpc_match_count, ( "alice")⟩] ∧
      (handle_search Nat (fun _ => 0) (fun _ _ _ _ => []) ( "alice")
        (some ( " "))).status = 200 ∧
      (handle_search Nat (fun _ => 0) (fun _ _ _ _ => []) ( "alice")
        none).embed_calls = [] ∧
      (handle_search Nat (fun _ => 0) (fun _ _ _ _ => []) ( "alice")
        none).store_calls = [] ∧
      (handle_search Nat (fun _ => 0) (fun _ _ _ _ => []) ( "alice")
        none).status = 400 ∧
      (handle_search Nat (fun _ => 0) (fun _ _ _ _ => []) ( "alice")
        (some ( ""))).embed_calls = [] ∧
      (handle_search Nat (fun _ => 0) (fun _ _ _ _ => []) ( "alice")
        (some ( ""))).store_calls = [] ∧
      (handle_search Nat (fun _ => 0) (fun _ _ _ _ => []) ( "alice")
        (some ( ""))).status = 400) :=
  ⟨by decide,
    whitespace_query_not_short_circuited Nat (fun _ => 0) (fun _ _ _ _ => [])
      ( "alice") ( " ") (by decide)⟩

/-- C2: (i) every record stored by any ingestion run is tagged with the
uploading caller's owner id; (ii) a search by owner `query_user` passes
exactly that id as the store filter; (iii) assuming the store honors its
filter contract over a database `db`, every rendered result of that
search originates from a record of `db` whose `user_id` is `query_user`
— so a chunk stored with a different owner id is never returned. -/
theorem owner_isolation (E : Type) (embed : String → E)
    (store : E → ℚ → Nat → String → List SearchRow) (db : List (Record E))
    (split_text : String → List String) (insert_ok : Nat → Bool)
    (insert_err filename upload_user query_user q : String)
    (extraction : Extraction)
    (hhonest : store_honors_filter E db store) (hq : q ≠ "") :
    (∀ rec ∈ (handle_upload E embed split_text insert_ok insert_err filename
        upload_user extraction).stored, rec.user_id = upload_user) ∧
    (handle_search E embed store query_user (some q)).store_calls =
      [⟨embed q, rpc_match_threshold, rpc_match_count, query_user⟩] ∧
    (∀ rows, (handle_search E embed store query_user (some q)).body = .results rows →
      ∀ row ∈ rows, ∃ rec ∈ db,
        rec.user_id = query_user ∧ row.content = escape_html rec.content) := by
  refine ⟨?_, ?_, ?_⟩
  · intro rec hrec
    unfold handle_upload at hrec
    by_cases hpdf : ends_with filename.data pdf_ext = true
    · rw [if_pos hpdf] at hrec
      cases extraction with
      | failure msg => simp at hrec
      | ok full_text =>
        dsimp only at hrec
        by_cases hblank : is_blank full_text = true
        · simp [hblank] at hrec
        · rw [if_neg hblank] at hrec
          rcases hloop : (ingest_loop E embed insert_ok insert_err upload_user
              filename 0 (split_text full_text)).2.2 with _ | msg
          · rw [hloop] at hrec
            simp only at hrec
            exact ingest_loop_stored_user E embed insert_ok insert_err upload_user
              filename (split_text full_text) 0 rec hrec
          · rw [hloop] at hrec
            simp only at hrec
            exact ingest_loop_stored_user E embed insert_ok insert_err upload_user
              filename (split_text full_text) 0 rec hrec
    · rw [if_neg hpdf] at hrec
      simp at hrec
  · simp [handle_search, hq]
  · intro rows hrows row hrow
    rw [handle_search] at hrows
    simp only [hq, if_neg] at hrows
    have hrows2 : rows = (store (embed q) rpc_match_threshold rpc_match_count
        query_user).map render_row := by
      have := hrows
      simp at this
      exact this.symm
    subst hrows2
    rcases List.mem_map.mp hrow with ⟨srow, hsrow, rfl⟩
    rcases hhonest (embed q) rpc_match_threshold rpc_match_count query_user
      srow hsrow with ⟨rec, hrecdb, hrecuid, hcontent⟩
    exact ⟨rec, hrecdb, hrecuid, by rw [render_row, hcontent]⟩

/-- Witness for `owner_isolation`: empty database, a store returning
nothing (which vacuously honors the filter contract), an upload by
`"alice"` and a search by `"bob"`. -/
theorem owner_isolation_witness :
    store_honors_filter Nat [] (fun _ _ _ _ => []) ∧
    ( "x") ≠ "" ∧
    ((∀ rec ∈ (handle_upload Nat (fun _ => 0) (fun _ => [ "c0"]) (fun _ => true)
        ( "e") ( "doc.pdf") ( "alice") (.ok ( "hi"))).stored,
        rec.user_id = "alice") ∧
      (handle_search Nat (fun _ => 0) (fun _ _ _ _ => []) ( "bob")
        (some ( "x"))).store_calls =
        [⟨(fun (_ : String) => (0 : Nat)) ( "x"), rpc_match_threshold,
          rpc_match_count, ( "bob")⟩] ∧
      (∀ rows, (handle_search Nat (fun _ => 0) (fun _ _ _ _ => []) ( "bob")
          (some ( "x"))).body = .results rows →
        ∀ row ∈ rows, ∃ rec ∈ ([] : List (Record Nat)),
          rec.user_id = "bob" ∧ row.content = escape_html rec.content)) :=
  ⟨fun _ _ _ _ row hrow => absurd hrow (List.not_mem_nil row),
    by decide,
    owner_isolation Nat (fun _ => 0) (fun _ _ _ _ => []) [] (fun _ => [ "c0"])
      (fun _ => true) ( "e") ( "doc.pdf") ( "alice") ( "bob") ( "x")
      (.ok ( "hi"))
      (fun _ _ _ _ row hrow => absurd hrow (List.not_mem_nil row))
      (by decide)⟩

end ArchiveIQ
